import Mathlib

/-!
Shallow embedding of `pyanaconda/bootloader/grub2.py` (classes `GRUB2` and
`IPSeriesGRUB2`) and proofs about its behaviour.

Python strings are modelled as `String`; a Python attribute that may be
`None`/empty and is tested for truthiness is modelled as a `String` where
`""` stands for unset, or as an `Option`.  Side effects (file renames, file
contents, external tool invocations) are returned explicitly as values and
event traces.  Outcomes of external tools (exit codes, captured stdout) are
supplied as explicit environment parameters.
-/

namespace Grub2

/-- Python `str.strip()`: remove leading and trailing whitespace. -/
def pyStrip (s : String) : String :=
  String.mk (((s.data.dropWhile Char.isWhitespace).reverse.dropWhile Char.isWhitespace).reverse)

/-- Helper for `pySplit`: accumulates the current token (reversed) while
scanning the character list. -/
def pySplitAux : List Char → List Char → List String
  | [], cur => if cur.isEmpty then [] else [String.mk cur.reverse]
  | c :: cs, cur =>
    if c.isWhitespace then
      if cur.isEmpty then pySplitAux cs [] else String.mk cur.reverse :: pySplitAux cs []
    else pySplitAux cs (c :: cur)

/-- Python `str.split()` with no argument: split on runs of whitespace,
producing no empty tokens. -/
def pySplit (s : String) : List String := pySplitAux s.data []

/-- Python `str.replace('"', '')`: remove every double-quote character. -/
def pyRemoveQuotes (s : String) : String := String.mk (s.data.filter (fun c => c ≠ '"'))

/-- Python `" ".join(l)`. -/
def joinSpace : List String → String
  | [] => ""
  | [x] => x
  | x :: xs => x ++ " " ++ joinSpace xs

/-- Modelled from the spec: `boot_args` is the shared kernel boot-argument
set (the `Arguments` ordered set of the base boot-loader module, whose code
is not among the sources here); adding a token inserts it only if it is not
already present, and the set renders as its tokens joined by spaces. -/
def addArg (args : List String) (a : String) : List String :=
  if a ∈ args then args else args ++ [a]

/-- One entry of a parted partition table, as used by `GRUB2.check`:
`geometry.start` (in sectors) and the `PARTITION_BIOS_GRUB` flag. -/
structure Partition where
  start : Nat
  bios_grub : Bool
deriving DecidableEq, Repr

/-- The stage1 disk as used by `GRUB2.check`: its device name, its
`format.parted_disk.partitions`, and the disk device's sector size
(`p.disk.device.sectorSize` is the same for every partition of one disk). -/
structure PartedDisk where
  name : String := ""
  sectorSize : Nat
  partitions : List Partition
deriving DecidableEq, Repr

/-- A blivet device as seen by this module.  `id` stands for object
identity (Python `==` on devices).  `disk` is `some` of the owning disk's
`id` exactly when the Python object has a `disk` attribute (partition-like
devices); `labelType` and `partNumber` are the owning disk's label type and
the partition's parted number, used by `grub_device_name`. -/
structure Device where
  id : Nat
  name : String := ""
  path : String := ""
  isDisk : Bool := false
  disk : Option Nat := none
  labelType : String := ""
  partNumber : Nat := 0
deriving DecidableEq, Repr

/-- The attributes of a `GRUB2` (or `IPSeriesGRUB2`) instance that the
embedded methods read or write.  Attributes inherited from the base
boot-loader class (whose code is not among the sources) are modelled as
plain fields: `disks`, `stage1_device`, `stage2_device` and its derived
`stage2_disks`/`stage2_type`/`stage2_fmt_type`, `stage1_disk`, console and
serial settings, `boot_args`, passwords, and the feature flags. -/
structure GRUB2State where
  disks : List Device := []
  stage1_device : Device := { id := 0 }
  stage2_device : Device := { id := 0 }
  stage2_disks : List Device := []
  stage2_type : String := ""
  stage2_fmt_type : String := ""
  stage1_disk : Option PartedDisk := none
  console : String := ""
  console_options : String := ""
  has_serial_console : Bool := false
  serial_command : String := ""
  terminal_type : String := "console"
  timeout : Int := 0
  boot_args : List String := []
  password : String := ""
  encrypted_password : String := ""
  use_bls : Bool := false
  new_kernel_pkg_present : Bool := false
  default_present : Bool := false
  menu_auto_hide : Bool := false
  keep_mbr : Bool := false
  keep_boot_order : Bool := false
  skip_bootloader : Bool := false
  update_only : Bool := false
deriving DecidableEq, Repr

/-- Index of the disk with identity `did` in `self.disks` (`list.index`;
the absent case, where Python would raise `ValueError`, yields the list
length and is exercised by no claim). -/
def disks_index (disks : List Device) (did : Nat) : Nat :=
  (disks.map Device.id).indexOf did

/-- `GRUB2.grub_device_name`: disks and partitions use `(hdX,Y)` notation,
other devices their own name in parentheses. -/
def grub_device_name (disks : List Device) (device : Device) : String :=
  let disk : Option Nat := if device.isDisk then some device.id else device.disk
  match disk with
  | none => "(" ++ device.name ++ ")"
  | some did =>
    let name := "(hd" ++ toString (disks_index disks did)
    let name := name ++
      (match device.disk with
       | some _ => "," ++ device.labelType ++ toString device.partNumber
       | none => "")
    name ++ ")"

/-- The device list assembled by `GRUB2.write_device_map`: `self.disks`,
then `stage1_device` if absent, then each of `stage2_device.disks` not yet
present, finally restricted to actual disks. -/
def collect_map_devices (st : GRUB2State) : List Device :=
  let devices := st.disks
  let devices := if st.stage1_device ∈ devices then devices else devices ++ [st.stage1_device]
  let devices := st.stage2_disks.foldl (fun acc d => if d ∈ acc then acc else acc ++ [d]) devices
  devices.filter Device.isDisk

/-- Filesystem effect of `GRUB2.write_device_map`: whether the existing map
file was renamed to `.anacbak`, and the lines of the newly written file
(`none` when no file is written). -/
structure DeviceMapResult where
  renamed_backup : Bool
  content : Option (List String)
deriving DecidableEq, Repr

/-- `GRUB2.write_device_map`.  `map_readable` is `os.access(map_path, R_OK)`.
The source renames a readable pre-existing map file to the backup name
first, before assembling the device list; only then, if the disk-only list
is non-empty, does it write the new file. -/
def write_device_map (st : GRUB2State) (map_readable : Bool) : DeviceMapResult :=
  let renamed := map_readable
  let devices := collect_map_devices st
  if devices.length = 0 then ⟨renamed, none⟩
  else
    ⟨renamed,
     some ("# this device map was generated by anaconda" ::
       devices.map (fun d => grub_device_name st.disks d ++ "      " ++ d.path))⟩

/-- `GRUB2.write_config_console`: when a console is configured, add a
`console=<dev>[,<options>]` token to `boot_args`. -/
def write_config_console (st : GRUB2State) : GRUB2State :=
  if st.console = "" then st
  else
    let console_arg := "console=" ++ st.console ++
      (if st.console_options ≠ "" then "," ++ st.console_options else "")
    { st with boot_args := addArg st.boot_args console_arg }

/-- `GRUB2.write_defaults`: the updated state (`use_bls` may be forced off
when the legacy `new-kernel-pkg` tool is present) and the lines written to
`/etc/default/grub`. -/
def write_defaults (st : GRUB2State) : GRUB2State × List String :=
  let lines := ["GRUB_TIMEOUT=" ++ toString st.timeout,
    "GRUB_DISTRIBUTOR=\"$(sed \x27s, release .*$,,g\x27 /etc/system-release)\"",
    "GRUB_DEFAULT=saved",
    "GRUB_DISABLE_SUBMENU=true"]
  let lines := lines ++
    (if st.console ≠ "" ∧ st.has_serial_console then
      ["GRUB_TERMINAL=\"serial console\"",
       "GRUB_SERIAL_COMMAND=\"" ++ st.serial_command ++ "\""]
     else ["GRUB_TERMINAL_OUTPUT=\"" ++ st.terminal_type ++ "\""])
  let lines := lines ++
    ["GRUB_CMDLINE_LINUX=\"" ++ joinSpace st.boot_args ++ "\"",
     "GRUB_DISABLE_RECOVERY=\"true\""]
  let st := if st.use_bls ∧ st.new_kernel_pkg_present then { st with use_bls := false } else st
  let lines := lines ++ (if st.use_bls then ["GRUB_ENABLE_BLSCFG=true"] else [])
  (st, lines)

/-- Exceptions `GRUB2._encrypt_password` can raise: `RuntimeError` for an
empty password, `IndexError` from `buf.split()[-1]` on token-less tool
output, `BootLoaderError` for a hash without the expected prefix. -/
inductive PwError
  | runtime_error
  | index_error
  | boot_loader_error
deriving DecidableEq, Repr

/-- `GRUB2._encrypt_password`.  `tool_output` is the captured stdout of
`grub2-mkpasswd-pbkdf2`.  Returns the resulting state, the number of
invocations of the external hash tool, and the exception raised, if any.
Note the source assigns `self.encrypted_password = buf.split()[-1].strip()`
before checking the `grub.pbkdf2.` prefix. -/
def encrypt_password (st : GRUB2State) (tool_output : String) :
    GRUB2State × Nat × Option PwError :=
  if st.encrypted_password ≠ "" then (st, 0, none)
  else if st.password = "" then (st, 0, some PwError.runtime_error)
  else
    match (pySplit tool_output).getLast? with
    | none => (st, 1, some PwError.index_error)
    | some t =>
      let st := { st with encrypted_password := pyStrip t }
      if "grub.pbkdf2.".data.isPrefixOf st.encrypted_password.data then (st, 1, none)
      else (st, 1, some PwError.boot_loader_error)

/-- `GRUB2.write_password_config`: a no-op when neither a password nor a
hash is configured, otherwise runs the encryption step (the `user.cfg` file
write itself is a plain effect carrying no further logic). -/
def write_password_config (st : GRUB2State) (tool_output : String) :
    GRUB2State × Nat × Option PwError :=
  if st.password = "" ∧ st.encrypted_password = "" then (st, 0, none)
  else encrypt_password st tool_output

/-- Observable steps of `GRUB2.write` and `GRUB2.write_config`, in source
order. -/
inductive Event
  | update_call
  | write_device_map_call
  | sync_stage2
  | os_sync
  | install_attempt
  | write_defaults_call
  | write_password_config_call
  | set_default
  | editenv
  | mkconfig
deriving DecidableEq, Repr

/-- Fatal errors `GRUB2.write` can propagate: `BootLoaderError` from the
install loop, `BootLoaderError` from the final `grub2-mkconfig`, or the
`IndexError` from `_encrypt_password` that escapes `write_config`'s
password step (its `except` clause catches only `BootLoaderError`,
`OSError` and `RuntimeError`). -/
inductive WError
  | install_error
  | config_error
  | password_index_error
deriving DecidableEq, Repr

/-- Outcomes of the external tools driven by `write`/`write_config`:
whether `grub2-install` exits non-zero, whether `grub2-mkconfig` exits
non-zero, and the hash tool's captured stdout.  Failures of
`grub2-set-default` and `grub2-editenv` are only logged by the source and
have no further effect, so they are not tracked. -/
structure ExtEnv where
  install_fails : Bool := false
  mkconfig_fails : Bool := false
  pw_tool_output : String := ""
deriving DecidableEq, Repr

/-- `GRUB2.write_config`: console args, the `rd.shell=0` addition when a
password is configured, the defaults file, the password file (its
exceptions are caught and only logged), default-entry selection and
menu-auto-hide (failures only logged), then `grub2-mkconfig`, whose failure
raises `BootLoaderError`.  `write_config_state2` is the opening part: the
console argument, then `rd.shell=0` added to `boot_args` when a password or
a hash is configured. -/
def write_config_state2 (st : GRUB2State) : GRUB2State :=
  let st1 := write_config_console st
  if st1.password ≠ "" ∨ st1.encrypted_password ≠ "" then
    { st1 with boot_args := addArg st1.boot_args "rd.shell=0" }
  else st1

/-- Remainder of `GRUB2.write_config` after the boot-argument updates of
`write_config_state2`.  The try/except around `write_password_config`
catches only `BootLoaderError`, `OSError` and `RuntimeError` (logged, then
execution continues); the `IndexError` of `_encrypt_password` is NOT
caught, so it aborts `write_config` before the default-entry selection,
the menu-auto-hide step and `grub2-mkconfig`, and propagates as a fatal
error.  The caught `runtime_error` and `boot_loader_error` outcomes (and
the modelled file writes, which cannot fail here) continue to the
remaining steps, where a `grub2-mkconfig` failure raises
`BootLoaderError`. -/
def write_config_run (st : GRUB2State) (env : ExtEnv) :
    GRUB2State × List Event × List String × Option WError :=
  let st2 := write_config_state2 st
  let st3 := (write_defaults st2).1
  let lines := (write_defaults st2).2
  let pw := write_password_config st3 env.pw_tool_output
  let st4 := pw.1
  if pw.2.2 = some PwError.index_error then
    (st4, [Event.write_defaults_call, Event.write_password_config_call], lines,
     some WError.password_index_error)
  else
    (st4,
     [Event.write_defaults_call, Event.write_password_config_call] ++
       (if st.default_present then [Event.set_default] else []) ++
       (if st.menu_auto_hide then [Event.editenv] else []) ++
       [Event.mkconfig],
     lines,
     if env.mkconfig_fails then some WError.config_error else none)

/-- `GRUB2.write`: skip entirely, update-only, or the try/finally sequence
device map → stage2 sync → os.sync → install → os.sync → stage2 sync, with
`write_config` plus a final os.sync and stage2 sync always run afterwards.
Per Python semantics an exception raised inside the finally block replaces
the one from the try block. -/
def write_run (st : GRUB2State) (env : ExtEnv) : List Event × Option WError :=
  if st.skip_bootloader then ([], none)
  else if st.update_only then ([Event.update_call], none)
  else
    let tryResult : List Event × Option WError :=
      if env.install_fails then
        ([Event.write_device_map_call, Event.sync_stage2, Event.os_sync,
          Event.install_attempt], some WError.install_error)
      else
        ([Event.write_device_map_call, Event.sync_stage2, Event.os_sync,
          Event.install_attempt, Event.os_sync, Event.sync_stage2], none)
    let cfg := write_config_run st env
    match cfg.2.2.2 with
    | some e => (tryResult.1 ++ cfg.2.1, some e)
    | none => (tryResult.1 ++ cfg.2.1 ++ [Event.os_sync, Event.sync_stage2], tryResult.2)

/-- The argument lists `GRUB2.install` passes to `grub2-install`, one per
entry of `install_targets` (an inherited property, supplied here as the
`targets` parameter), in loop order.  A non-zero exit aborts the loop with
`BootLoaderError`; that failure is tracked by `ExtEnv.install_fails` in
`write_run`. -/
def grub2_install_invocations (st : GRUB2State) (targets : List (Device × Device))
    (args : Option (List String)) : List (List String) :=
  let args := args.getD []
  targets.map (fun t =>
    let grub_args := args ++ ["--no-floppy", t.1.path]
    if t.1 = t.2 then "--force" :: grub_args
    else if st.keep_mbr then "--grub-setup=/bin/true" :: grub_args
    else grub_args)

/-- The reordering in `IPSeriesGRUB2.updateNVRAMBootList`: place the disk
holding the PReP partition first and drop every other occurrence of it. -/
def reorder_boot_list (boot_list : List String) (boot_disk : String) : List String :=
  boot_disk :: boot_list.filter (fun x => x ≠ boot_disk)

/-- Inputs of `IPSeriesGRUB2.updateNVRAMBootList`: whether the target is
real hardware (`conf.target.is_hardware`), and the captured stdout of
`nvram --print-config=boot-device` and of `ofpathname`. -/
structure NvramEnv where
  is_hardware : Bool := true
  nvram_buf : String := ""
  ofpath_buf : String := ""
deriving DecidableEq, Repr

/-- `IPSeriesGRUB2.updateNVRAMBootList`: returns the `boot-device=…` value
written back via `nvram --update-config`, or `none` when the update is
skipped (not hardware, or empty output from either tool). -/
def updateNVRAMBootList (env : NvramEnv) : Option String :=
  if ¬ env.is_hardware then none
  else if env.nvram_buf.length = 0 then none
  else
    let boot_list := pySplit (pyRemoveQuotes (pyStrip env.nvram_buf))
    if env.ofpath_buf.length > 0 then
      let boot_disk := pyStrip env.ofpath_buf
      some ("boot-device=" ++ joinSpace (reorder_boot_list boot_list boot_disk))
    else none

/-- `IPSeriesGRUB2.install`: reconcile the NVRAM boot order unless
`keep_boot_order` is set, then run the generic install.  The source calls
`super().install(args=["--no-nvram"])`, so the generic install always
receives exactly `["--no-nvram"]` whatever `args` the caller passed.
Returns the NVRAM update value (if one was written) and the
`grub2-install` invocations. -/
def ipseries_install (st : GRUB2State) (targets : List (Device × Device))
    (env : NvramEnv) (args : Option (List String)) :
    Option String × List (List String) :=
  let nvram_update := if st.keep_boot_order then none else updateNVRAMBootList env
  (nvram_update, grub2_install_invocations st targets (some ["--no-nvram"]))

/-- `GRUB2.check`: 31.5 KiB. -/
def base_gap_bytes : Nat := 32256

/-- `GRUB2.check`: 512 KiB. -/
def advanced_gap_bytes : Nat := 524288

/-- The gap-check error message of `GRUB2.check`, with the device name, the
stage2 filesystem type and the stage2 device type interpolated. -/
def gapErrorMsg (deviceName fsType deviceType : String) : String :=
  deviceName ++ " may not have enough space for grub2 to embed core.img when using the " ++
    fsType ++ " file system on " ++ deviceType

/-- The partition scan loop of `GRUB2.check`: stop with `biosboot = true`
at the first partition flagged `PARTITION_BIOS_GRUB`; otherwise remember
the error message whenever a partition's start byte offset is below
`min_start`.  `em` is the current `error_msg` accumulator. -/
def scanParts (sectorSize min_start : Nat) (msg : String) :
    List Partition → Option String → Bool × Option String
  | [], em => (false, em)
  | p :: ps, em =>
    if p.bios_grub then (true, em)
    else scanParts sectorSize min_start msg ps
      (if p.start * sectorSize < min_start then some msg else em)

/-- `GRUB2.check`: returns `(ret, errors, warnings)`; the `errors` and
`warnings` attributes are reset at the start of every call.  The final
guard mirrors `if error_msg and not biosboot` (`error_msg` is either `None`
or the non-empty message, so Python truthiness is `isSome`). -/
def check (st : GRUB2State) : Bool × List String × List String :=
  if st.stage1_device = st.stage2_device then (true, [], [])
  else
    let min_start := if st.stage2_type = "partition" then base_gap_bytes else advanced_gap_bytes
    match st.stage1_disk with
    | none => (false, [], [])
    | some d =>
      let msg := gapErrorMsg st.stage1_device.name st.stage2_fmt_type st.stage2_type
      let res := scanParts d.sectorSize min_start msg d.partitions none
      if res.2.isSome ∧ res.1 = false then (false, [res.2.getD ""], [])
      else (true, [], [])

/-! Concrete devices and states used to instantiate the theorems below. -/

/-- A disk. -/
def sdaDev : Device := { id := 1, name := "sda", path := "/dev/sda", isDisk := true }

/-- A partition of `sdaDev`. -/
def sda1Dev : Device :=
  { id := 2, name := "sda1", path := "/dev/sda1", disk := some 1,
    labelType := "msdos", partNumber := 1 }

/-- Parted view of `sdaDev` with a single unflagged partition starting at
byte 29696 (58 × 512), below the 32256-byte gap. -/
def lowStartDisk : PartedDisk :=
  { name := "sda", sectorSize := 512,
    partitions := [{ start := 58, bios_grub := false }] }

/-- Parted view with a low-starting unflagged partition placed before a
bios-boot-flagged one in table order. -/
def biosBootDisk : PartedDisk :=
  { name := "sda", sectorSize := 512,
    partitions := [{ start := 10, bios_grub := false },
                   { start := 20, bios_grub := true }] }

/-- Stage1 at the disk's MBR, stage2 a plain partition, gap too small. -/
def lowStartState : GRUB2State :=
  { stage1_device := sdaDev, stage2_device := sda1Dev, stage2_type := "partition",
    stage2_fmt_type := "ext4", stage1_disk := some lowStartDisk }

/-- Same layout but with the bios-boot-flagged table. -/
def biosBootState : GRUB2State :=
  { lowStartState with stage1_disk := some biosBootDisk }

/-- Distinct stage1/stage2 devices with no determinable stage1 disk. -/
def noDiskState : GRUB2State :=
  { stage1_device := sdaDev, stage2_device := sda1Dev, stage1_disk := none }

/-- A state whose collected device-map set is empty: no listed disks, a
non-disk stage1 device, no stage2 backing disks. -/
def emptyMapState : GRUB2State := { stage1_device := sda1Dev }

/-- A state with a plaintext password and no hash yet. -/
def pwState : GRUB2State := { password := "p" }

/-- A state with a password and one pre-existing kernel argument. -/
def pwArgsState : GRUB2State := { password := "p", boot_args := ["quiet"] }

/-! Helper lemmas about the embedded operations. -/

theorem mem_addArg (l : List String) (a x : String) : x ∈ addArg l a ↔ x ∈ l ∨ x = a := by
  unfold addArg
  split
  · next h =>
      constructor
      · exact fun hx => Or.inl hx
      · rintro (hx | rfl)
        · exact hx
        · exact h
  · simp [List.mem_append]

theorem console_arg_ne_rdshell (a b : String) : "console=" ++ a ++ b ≠ "rd.shell=0" := by
  intro h
  have h2 := congrArg String.data h
  rw [String.data_append, String.data_append] at h2
  have h3 : String.data "console=" = ['c', 'o', 'n', 's', 'o', 'l', 'e', '='] := rfl
  have h4 : String.data "rd.shell=0" = ['r', 'd', '.', 's', 'h', 'e', 'l', 'l', '=', '0'] := rfl
  rw [h3, h4] at h2
  simp at h2

theorem scanParts_of_no_bios (ss m : Nat) (msg : String) (ps : List Partition) :
    ∀ em : Option String, ps.all (fun p => !p.bios_grub) = true →
      scanParts ss m msg ps em =
        (false, if ps.any (fun p => decide (p.start * ss < m)) = true then some msg else em) := by
  induction ps with
  | nil => intro em _; simp [scanParts]
  | cons p ps ih =>
    intro em hall
    rw [List.all_cons] at hall
    rcases Bool.and_eq_true_iff.mp hall with ⟨hp, hps⟩
    have hpb : p.bios_grub = false := by
      cases hpbc : p.bios_grub
      · rfl
      · rw [hpbc] at hp; exact absurd hp (by decide)
    rw [List.any_cons]
    simp only [scanParts, hpb, Bool.false_eq_true, if_false]
    rw [ih _ hps]
    by_cases hlt : p.start * ss < m
    · simp [hlt]
    · simp [hlt]

theorem scanParts_fst_of_bios (ss m : Nat) (msg : String) (ps : List Partition) :
    ∀ em : Option String, ps.any (fun p => p.bios_grub) = true →
      (scanParts ss m msg ps em).1 = true := by
  induction ps with
  | nil => intro em h; simp at h
  | cons p ps ih =>
    intro em h
    by_cases hb : p.bios_grub = true
    · simp [scanParts, hb]
    · have hb' : p.bios_grub = false := by
        cases hbc : p.bios_grub
        · rfl
        · exact absurd hbc hb
      rw [List.any_cons] at h
      have hps : ps.any (fun p => p.bios_grub) = true := by
        rcases Bool.or_eq_true_iff.mp h with h1 | h1
        · exact absurd h1 hb
        · exact h1
      simp only [scanParts, hb', Bool.false_eq_true, if_false]
      exact ih _ hps

theorem write_config_console_password (st : GRUB2State) :
    (write_config_console st).password = st.password := by
  unfold write_config_console
  split <;> rfl

theorem write_config_console_encrypted (st : GRUB2State) :
    (write_config_console st).encrypted_password = st.encrypted_password := by
  unfold write_config_console
  split <;> rfl

theorem write_config_console_not_mem_rdshell (st : GRUB2State)
    (h : "rd.shell=0" ∉ st.boot_args) :
    "rd.shell=0" ∉ (write_config_console st).boot_args := by
  unfold write_config_console
  split
  · exact h
  · intro hmem
    rcases (mem_addArg _ _ _).mp hmem with hmem' | heq
    · exact h hmem'
    · exact console_arg_ne_rdshell _ _ heq.symm

theorem encrypt_password_boot_args (st : GRUB2State) (out : String) :
    (encrypt_password st out).1.boot_args = st.boot_args := by
  unfold encrypt_password
  split
  · rfl
  · split
    · rfl
    · split
      · rfl
      · dsimp only
        split <;> rfl

theorem write_password_config_boot_args (st : GRUB2State) (out : String) :
    (write_password_config st out).1.boot_args = st.boot_args := by
  unfold write_password_config
  split
  · rfl
  · exact encrypt_password_boot_args st out

theorem write_defaults_fst_boot_args (st : GRUB2State) :
    ((write_defaults st).1).boot_args = st.boot_args := by
  simp only [write_defaults]
  split <;> rfl

theorem cmdline_mem_write_defaults (st : GRUB2State) :
    ("GRUB_CMDLINE_LINUX=\"" ++ joinSpace st.boot_args ++ "\"") ∈ (write_defaults st).2 := by
  simp only [write_defaults]
  split_ifs <;> simp [List.mem_append]

theorem write_config_run_fst (st : GRUB2State) (env : ExtEnv) :
    (write_config_run st env).1 =
      (write_password_config (write_defaults (write_config_state2 st)).1
        env.pw_tool_output).1 := by
  simp only [write_config_run]
  split <;> rfl

theorem write_config_run_events_of_ok (st : GRUB2State) (env : ExtEnv)
    (h : (write_password_config (write_defaults (write_config_state2 st)).1
      env.pw_tool_output).2.2 ≠ some PwError.index_error) :
    (write_config_run st env).2.1 =
      [Event.write_defaults_call, Event.write_password_config_call] ++
        (if st.default_present then [Event.set_default] else []) ++
        (if st.menu_auto_hide then [Event.editenv] else []) ++ [Event.mkconfig] := by
  simp only [write_config_run]
  rw [if_neg h]

theorem write_config_run_err (st : GRUB2State) (env : ExtEnv) :
    (write_config_run st env).2.2.2 =
      if (write_password_config (write_defaults (write_config_state2 st)).1
          env.pw_tool_output).2.2 = some PwError.index_error
      then some WError.password_index_error
      else if env.mkconfig_fails then some WError.config_error else none := by
  simp only [write_config_run]
  split <;> rfl

theorem write_config_run_lines (st : GRUB2State) (env : ExtEnv) :
    (write_config_run st env).2.2.1 = (write_defaults (write_config_state2 st)).2 := by
  simp only [write_config_run]
  split <;> rfl

theorem write_config_run_boot_args (st : GRUB2State) (env : ExtEnv) :
    (write_config_run st env).1.boot_args = (write_config_state2 st).boot_args := by
  rw [write_config_run_fst, write_password_config_boot_args, write_defaults_fst_boot_args]

theorem mkconfig_mem_events (st : GRUB2State) (env : ExtEnv)
    (h : (write_password_config (write_defaults (write_config_state2 st)).1
      env.pw_tool_output).2.2 ≠ some PwError.index_error) :
    Event.mkconfig ∈ (write_config_run st env).2.1 := by
  rw [write_config_run_events_of_ok st env h]
  simp

theorem defaults_mem_events (st : GRUB2State) (env : ExtEnv) :
    Event.write_defaults_call ∈ (write_config_run st env).2.1 := by
  simp only [write_config_run]
  split <;> simp

theorem write_config_state2_pos (st : GRUB2State)
    (h : st.password ≠ "" ∨ st.encrypted_password ≠ "") :
    (write_config_state2 st).boot_args =
      addArg (write_config_console st).boot_args "rd.shell=0" := by
  have hcond : (write_config_console st).password ≠ "" ∨
      (write_config_console st).encrypted_password ≠ "" := by
    rw [write_config_console_password, write_config_console_encrypted]
    exact h
  simp only [write_config_state2]
  rw [if_pos hcond]

theorem write_config_state2_neg (st : GRUB2State)
    (h1 : st.password = "") (h2 : st.encrypted_password = "") :
    write_config_state2 st = write_config_console st := by
  have hcond : ¬ ((write_config_console st).password ≠ "" ∨
      (write_config_console st).encrypted_password ≠ "") := by
    rw [write_config_console_password, write_config_console_encrypted]
    simp [h1, h2]
  simp only [write_config_state2]
  rw [if_neg hcond]

theorem write_run_install_fail_cfg_err (st : GRUB2State) (env : ExtEnv) (e : WError)
    (h1 : st.skip_bootloader = false) (h2 : st.update_only = false)
    (h3 : env.install_fails = true) (h4 : (write_config_run st env).2.2.2 = some e) :
    write_run st env =
      ([Event.write_device_map_call, Event.sync_stage2, Event.os_sync, Event.install_attempt] ++
        (write_config_run st env).2.1, some e) := by
  simp [write_run, h1, h2, h3, h4]

theorem write_run_install_fail_cfg_ok (st : GRUB2State) (env : ExtEnv)
    (h1 : st.skip_bootloader = false) (h2 : st.update_only = false)
    (h3 : env.install_fails = true) (h4 : (write_config_run st env).2.2.2 = none) :
    write_run st env =
      ([Event.write_device_map_call, Event.sync_stage2, Event.os_sync, Event.install_attempt] ++
        ((write_config_run st env).2.1 ++ [Event.os_sync, Event.sync_stage2]),
       some WError.install_error) := by
  simp [write_run, h1, h2, h3, h4]

/-! Theorems settling the claims. -/

/-- C1 (amended): with the skip and update-only flags unset, when the
install step of `write` raises a fatal error, config writing is still
attempted before any error propagates (the defaults file is written in
every case, and `grub2-mkconfig` is reached whenever the password step
does not raise its uncaught `IndexError`); and when config writing
completes without a fatal error of its own, the closing sync pair runs and
the install error is re-raised to the caller.  (As originally stated the
claim fails when config writing raises — a failing `grub2-mkconfig`, or an
uncaught `IndexError` from the password step: per Python `finally`
semantics that error replaces the install error — see the
counterexample.) -/
theorem claim_C1_amended (st : GRUB2State) (env : ExtEnv)
    (h1 : st.skip_bootloader = false) (h2 : st.update_only = false)
    (h3 : env.install_fails = true) :
    Event.write_defaults_call ∈ (write_run st env).1 ∧
    ((write_password_config (write_defaults (write_config_state2 st)).1
        env.pw_tool_output).2.2 ≠ some PwError.index_error →
      Event.mkconfig ∈ (write_run st env).1) ∧
    ((write_config_run st env).2.2.2 = none →
      (write_run st env).2 = some WError.install_error ∧
      (write_run st env).1 =
        [Event.write_device_map_call, Event.sync_stage2, Event.os_sync, Event.install_attempt] ++
          ((write_config_run st env).2.1 ++ [Event.os_sync, Event.sync_stage2])) := by
  refine ⟨?_, ?_, ?_⟩
  · cases hcfg : (write_config_run st env).2.2.2 with
    | none =>
      rw [write_run_install_fail_cfg_ok st env h1 h2 h3 hcfg]
      exact List.mem_append.mpr (Or.inr (List.mem_append.mpr
        (Or.inl (defaults_mem_events st env))))
    | some e =>
      rw [write_run_install_fail_cfg_err st env e h1 h2 h3 hcfg]
      exact List.mem_append.mpr (Or.inr (defaults_mem_events st env))
  · intro hpw
    cases hcfg : (write_config_run st env).2.2.2 with
    | none =>
      rw [write_run_install_fail_cfg_ok st env h1 h2 h3 hcfg]
      exact List.mem_append.mpr (Or.inr (List.mem_append.mpr
        (Or.inl (mkconfig_mem_events st env hpw))))
    | some e =>
      rw [write_run_install_fail_cfg_err st env e h1 h2 h3 hcfg]
      exact List.mem_append.mpr (Or.inr (mkconfig_mem_events st env hpw))
  · intro hok
    rw [write_run_install_fail_cfg_ok st env h1 h2 h3 hok]
    exact ⟨rfl, rfl⟩

/-- C1 witness: a concrete run with a failing installer, no configured
password and a succeeding `grub2-mkconfig`: the defaults file is written,
`grub2-mkconfig` is reached and the install error propagates. -/
theorem claim_C1_witness :
    (write_run ({} : GRUB2State) { install_fails := true }).2 = some WError.install_error ∧
    Event.write_defaults_call ∈ (write_run ({} : GRUB2State) { install_fails := true }).1 ∧
    Event.mkconfig ∈ (write_run ({} : GRUB2State) { install_fails := true }).1 :=
  have h := claim_C1_amended {} { install_fails := true } rfl rfl rfl
  ⟨(h.2.2 (by decide)).1, h.1, h.2.1 (by decide)⟩

/-- C1 counterexample: when `grub2-mkconfig` also fails, the error that
propagates out of `write` is the config error, not the install error, so
the install error is swallowed, contrary to the claim as stated. -/
theorem claim_C1_counterexample :
    ({ install_fails := true, mkconfig_fails := true } : ExtEnv).install_fails = true ∧
    (write_run ({} : GRUB2State) { install_fails := true, mkconfig_fails := true }).2 ≠
      some WError.install_error := by decide

/-- C2 (amended): when the collected, deduplicated, disk-only device set is
empty, no new device-map file is written — but a pre-existing readable map
file is still renamed to the backup suffix, because the source performs the
rename unconditionally before assembling the device set. -/
theorem claim_C2_amended (st : GRUB2State) (map_readable : Bool)
    (h : collect_map_devices st = []) :
    write_device_map st map_readable = ⟨map_readable, none⟩ := by
  unfold write_device_map
  rw [h]
  rfl

/-- C2 witness: a concrete state with an empty collected set: readable map
file renamed, nothing written. -/
theorem claim_C2_witness :
    collect_map_devices emptyMapState = [] ∧
    write_device_map emptyMapState true = ⟨true, none⟩ :=
  ⟨by decide, claim_C2_amended emptyMapState true (by decide)⟩

/-- C2 counterexample: with an empty device set and a readable pre-existing
map file, the file IS renamed to the backup suffix even though no new map
file is subsequently written, contrary to the claim as stated. -/
theorem claim_C2_counterexample :
    (write_device_map emptyMapState true).renamed_backup = true ∧
    (write_device_map emptyMapState true).content = none := by decide

/-- C3 (amended): the firmware-table variant of install first reconciles
the NVRAM boot order (unless the keep-boot-order flag is set) and then
invokes the generic install with exactly the single no-nvram-write flag as
its extra arguments, discarding any caller-supplied `extraArgs`. -/
theorem claim_C3_amended (st : GRUB2State) (targets : List (Device × Device))
    (env : NvramEnv) (args : Option (List String)) :
    (ipseries_install st targets env args).1 =
      (if st.keep_boot_order then none else updateNVRAMBootList env) ∧
    (ipseries_install st targets env args).2 =
      grub2_install_invocations st targets (some ["--no-nvram"]) ∧
    ipseries_install st targets env args = ipseries_install st targets env none :=
  ⟨rfl, rfl, rfl⟩

/-- C3 counterexample: with caller extraArgs `["--foo"]`, the generic
install is invoked with `--no-nvram` only — the caller's extra argument is
not preserved, contrary to the claim as stated. -/
theorem claim_C3_counterexample :
    (ipseries_install { keep_boot_order := true } [(sdaDev, sda1Dev)] {}
      (some ["--foo"])).2 = [["--no-nvram", "--no-floppy", "/dev/sda"]] ∧
    "--foo" ∉ (["--no-nvram", "--no-floppy", "/dev/sda"] : List String) := by decide

/-- C4: with distinct stage1/stage2 devices, a plain-partition stage2, a
determinable stage1 disk carrying no bios-boot flag whose name the stage1
device bears, and some partition starting below 32256 bytes, `check`
returns not-ok with exactly one error, naming the stage1 disk together
with the stage2 filesystem type and device kind, and no warnings. -/
theorem claim_C4 (st : GRUB2State) (d : PartedDisk)
    (h1 : st.stage1_device ≠ st.stage2_device)
    (h2 : st.stage2_type = "partition")
    (h3 : st.stage1_disk = some d)
    (h4 : d.partitions.all (fun p => !p.bios_grub) = true)
    (h5 : d.partitions.any (fun p => decide (p.start * d.sectorSize < base_gap_bytes)) = true)
    (h6 : st.stage1_device.name = d.name) :
    check st = (false, [gapErrorMsg d.name st.stage2_fmt_type st.stage2_type], []) := by
  simp only [check]
  rw [if_neg h1]
  simp only [h3, h6]
  rw [if_pos h2]
  rw [scanParts_of_no_bios d.sectorSize base_gap_bytes _ d.partitions none h4]
  rw [if_pos h5]
  simp

/-- C4 witness: the spec's concrete scenario — first partition starting at
byte 29696 < 32256, no bios-boot flag. -/
theorem claim_C4_witness :
    check lowStartState =
      (false,
       [gapErrorMsg lowStartDisk.name lowStartState.stage2_fmt_type lowStartState.stage2_type],
       []) :=
  claim_C4 lowStartState lowStartDisk (by decide) rfl rfl (by decide) (by decide) rfl

/-- C5: with distinct stage1/stage2 devices and a determinable stage1
disk, if any partition in the table carries the bios-boot flag then
`check` returns ok with no errors and no warnings, whatever the other
partitions' start offsets and wherever the flagged partition sits. -/
theorem claim_C5 (st : GRUB2State) (d : PartedDisk)
    (h1 : st.stage1_device ≠ st.stage2_device)
    (h3 : st.stage1_disk = some d)
    (h4 : d.partitions.any (fun p => p.bios_grub) = true) :
    check st = (true, [], []) := by
  simp only [check]
  rw [if_neg h1]
  simp only [h3]
  rw [if_neg]
  rintro ⟨-, hf⟩
  rw [scanParts_fst_of_bios _ _ _ d.partitions none h4] at hf
  simp at hf

/-- C5 witness: a low-starting unflagged partition placed before the
flagged one still yields ok with no errors. -/
theorem claim_C5_witness : check biosBootState = (true, [], []) :=
  claim_C5 biosBootState biosBootDisk (by decide) rfl (by decide)

/-- C6: `updateNVRAMBootList` places the resolved firmware path first,
removes every other occurrence of that token, and keeps the remaining
tokens' relative order (the tail is a filter, hence a sublist, of the
input); in particular boot list `[b, c]` with resolved path `c` is written
back as `boot-device=c b`. -/
theorem claim_C6 (l : List String) (d : String) :
    (reorder_boot_list l d).head? = some d ∧
    (reorder_boot_list l d).tail = l.filter (fun x => x ≠ d) ∧
    List.Sublist ((reorder_boot_list l d).tail) l ∧
    d ∉ (reorder_boot_list l d).tail ∧
    updateNVRAMBootList { is_hardware := true, nvram_buf := "b c", ofpath_buf := "c" } =
      some "boot-device=c b" := by
  refine ⟨rfl, rfl, ?_, ?_, by decide⟩
  · exact List.filter_sublist l
  · intro hmem
    rcases List.mem_filter.mp hmem with ⟨-, hne⟩
    simp at hne

/-- C7: once a call of `_encrypt_password` has succeeded (storing a hash
with one tool invocation), any further call is a no-op: the state — in
particular the stored hash — is unchanged and the external hash tool is
not invoked again. -/
theorem claim_C7 (st st' : GRUB2State) (out out' : String)
    (h : encrypt_password st out = (st', 1, none)) :
    encrypt_password st' out' = (st', 0, none) := by
  have hne : st'.encrypted_password ≠ "" := by
    unfold encrypt_password at h
    split at h
    · have h0 : (0 : Nat) = 1 := congrArg (fun x => x.2.1) h
      exact absurd h0 (by decide)
    · split at h
      · have h0 : (some PwError.runtime_error : Option PwError) = none :=
          congrArg (fun x => x.2.2) h
        exact Option.noConfusion h0
      · split at h
        · have h0 : (some PwError.index_error : Option PwError) = none :=
            congrArg (fun x => x.2.2) h
          exact Option.noConfusion h0
        · rename_i t hlast
          dsimp only at h
          split at h
          · rename_i hpre
            have hst : ({ st with encrypted_password := pyStrip t } : GRUB2State) = st' :=
              congrArg (fun x => x.1) h
            rw [← hst]
            dsimp only
            intro h0
            rw [h0] at hpre
            exact absurd hpre (by decide)
          · have h0 : (some PwError.boot_loader_error : Option PwError) = none :=
              congrArg (fun x => x.2.2) h
            exact Option.noConfusion h0
  unfold encrypt_password
  rw [if_pos hne]

/-- C7 witness: a first call that hashes `"p"` into a `grub.pbkdf2.`-
prefixed token, then a second call that is a no-op with zero invocations. -/
theorem claim_C7_witness :
    encrypt_password { pwState with encrypted_password := "grub.pbkdf2.abc" } "ignored" =
      ({ pwState with encrypted_password := "grub.pbkdf2.abc" }, 0, none) :=
  claim_C7 pwState { pwState with encrypted_password := "grub.pbkdf2.abc" }
    "grub.pbkdf2.abc" "ignored" (by decide)

/-- C8: when the hash tool's captured output has no whitespace-delimited
tokens, `_encrypt_password` fails with the unguarded list-indexing error —
not the documented boot-loader error — after one tool invocation, and the
state (in particular the unset `encrypted_password`) is unchanged. -/
theorem claim_C8 (st : GRUB2State) (out : String)
    (h1 : st.encrypted_password = "") (h2 : st.password ≠ "")
    (h3 : pySplit out = []) :
    encrypt_password st out = (st, 1, some PwError.index_error) := by
  unfold encrypt_password
  rw [if_neg (by simp [h1]), if_neg h2, h3]
  rfl

/-- C8 witness: whitespace-only tool output on a state with a plaintext
password and no hash yet. -/
theorem claim_C8_witness :
    encrypt_password pwState "  " = (pwState, 1, some PwError.index_error) :=
  claim_C8 pwState "  " rfl (by decide) (by decide)

/-- C9: when the stage1 disk cannot be determined and the stage1 and
stage2 devices differ, `check` returns not-ok with both the errors and the
warnings lists empty. -/
theorem claim_C9 (st : GRUB2State)
    (h1 : st.stage1_device ≠ st.stage2_device)
    (h2 : st.stage1_disk = none) :
    check st = (false, [], []) := by
  simp only [check]
  rw [if_neg h1]
  simp [h2]

/-- C9 witness: a concrete state with distinct devices and no stage1
disk. -/
theorem claim_C9_witness : check noDiskState = (false, [], []) :=
  claim_C9 noDiskState (by decide) rfl

/-- C10: when a boot-menu password (plaintext or pre-hashed) is
configured, `write_config` adds `rd.shell=0` to the shared boot-argument
set before the defaults file is written, and the written
`GRUB_CMDLINE_LINUX` value is rendered from that set; with no password
configured the token is not added. -/
theorem claim_C10 (st : GRUB2State) (env : ExtEnv) :
    ((st.password ≠ "" ∨ st.encrypted_password ≠ "") →
      "rd.shell=0" ∈ (write_config_run st env).1.boot_args ∧
      ("GRUB_CMDLINE_LINUX=\"" ++ joinSpace ((write_config_run st env).1.boot_args) ++ "\"")
        ∈ (write_config_run st env).2.2.1) ∧
    (st.password = "" → st.encrypted_password = "" → "rd.shell=0" ∉ st.boot_args →
      "rd.shell=0" ∉ (write_config_run st env).1.boot_args) := by
  constructor
  · intro h
    have hb := write_config_run_boot_args st env
    constructor
    · rw [hb, write_config_state2_pos st h, mem_addArg]
      right
      rfl
    · rw [write_config_run_lines, hb]
      exact cmdline_mem_write_defaults (write_config_state2 st)
  · intro hp he hm
    rw [write_config_run_boot_args st env, write_config_state2_neg st hp he]
    exact write_config_console_not_mem_rdshell st hm

/-- C10 witness: a state with a plaintext password and a pre-existing
kernel argument: `rd.shell=0` lands in the argument set and in the
rendered `GRUB_CMDLINE_LINUX` line. -/
theorem claim_C10_witness :
    "rd.shell=0" ∈ (write_config_run pwArgsState {}).1.boot_args ∧
    ("GRUB_CMDLINE_LINUX=\"" ++ joinSpace ((write_config_run pwArgsState {}).1.boot_args) ++ "\"")
      ∈ (write_config_run pwArgsState {}).2.2.1 :=
  (claim_C10 pwArgsState {}).1 (Or.inl (by decide))

end Grub2
